import Mathlib

/-!
Verification of the quadratic-approximation objective module of SGIMC
(`sgimc/qa_objective/__init__.py`).

Arrays of the numeric code are embedded as `List ℝ`.  Elementwise numpy
operations on two one-dimensional arrays follow numpy's broadcasting rule
for shapes `(n,)` and `(m,)`: equal lengths pair up index-for-index, a
length-one array is broadcast across the other, and every other
combination raises a shape error, modelled as `none`; the one in-place
operation (the logistic value's subtraction) additionally cannot enlarge
its output, so there only the target may have length one.  The loss classes
`QAObjectiveL2Loss`, `QAObjectiveHuberLoss` and `QAObjectiveLogLoss`
expose `v_func` (value), `g_func` (gradient), `h_func` (Hessian diagonal)
and `score`; each elementwise kernel is written out as a scalar function
`*_el` and lifted pointwise, exactly as the numpy expressions compute.
The base class `QuadraticApproximation` is an external collaborator whose
constructor arguments (X, W, Y, H, R, thread count, approximation type)
do not influence the four statistics functions, so they are omitted from
the embedding.
-/

noncomputable section

/-- numpy elementwise application of a binary ufunc to two one-dimensional
arrays: equal lengths combine index-for-index; an array of length one is
broadcast across the other; any other pair of lengths is a shape error. -/
def npBroadcast2 (f : ℝ → ℝ → ℝ) (a b : List ℝ) : Option (List ℝ) :=
  if a.length = b.length then some (List.zipWith f a b)
  else if a.length = 1 then some (b.map (f a.headI))
  else if b.length = 1 then some (a.map (fun x => f x b.headI))
  else none

namespace QAObjectiveL2Loss

/-- Elementwise kernel of the L2 value: `0.5 * (predict - target)**2`. -/
def v_el (p t : ℝ) : ℝ := 0.5 * (p - t) ^ 2

/-- `v_func(predict, target) = 0.5 * (predict - target)**2`. -/
def v_func (predict target : List ℝ) : Option (List ℝ) :=
  npBroadcast2 v_el predict target

/-- Elementwise kernel of the L2 gradient: `predict - target`. -/
def g_el (p t : ℝ) : ℝ := p - t

/-- `g_func(predict, target) = predict - target`. -/
def g_func (predict target : List ℝ) : Option (List ℝ) :=
  npBroadcast2 g_el predict target

/-- `h_func(predict, target) = np.ones(len(target))`: a constant array of
ones whose length is the target's length; `predict` is never consulted. -/
def h_func (predict target : List ℝ) : Option (List ℝ) :=
  some (List.replicate target.length 1)

/-- `score(predict, target) = sklearn.metrics.mean_squared_error(target,
predict)`: the mean of the squared differences.  sklearn validates that
both arrays have the same, nonzero number of samples and raises
otherwise, modelled as `none`. -/
def score (predict target : List ℝ) : Option ℝ :=
  if predict.length = target.length ∧ target ≠ [] then
    some ((List.zipWith (fun t p => (t - p) ^ 2) target predict).sum / target.length)
  else none

end QAObjectiveL2Loss

/-- `QAObjectiveHuberLoss` instances carry the single parameter `epsilon`
stored by the constructor. -/
structure QAObjectiveHuberLoss where
  epsilon : ℝ

namespace QAObjectiveHuberLoss

/-- The constructor body after delegating the base-class arguments: it
stores `self.epsilon = epsilon` unconditionally; no check of any kind is
performed, so construction always succeeds. -/
def init (epsilon : ℝ) : Except String QAObjectiveHuberLoss :=
  Except.ok ⟨epsilon⟩

/-- The declared default of the `epsilon` keyword argument: `1e-2`. -/
def defaultEpsilon : ℝ := 1e-2

/-- Construction without an explicit `epsilon` argument, which Python
resolves to the declared default value. -/
def initDefault : Except String QAObjectiveHuberLoss :=
  init defaultEpsilon

/-- Elementwise kernel of the Huber value: with `resid = |predict -
target|`, `np.where(resid > eps, eps * (resid - eps / 2), 0.5 * resid**2)`. -/
def v_el (eps p t : ℝ) : ℝ :=
  if |p - t| > eps then eps * (|p - t| - eps / 2) else 0.5 * |p - t| ^ 2

/-- Huber `v_func`, elementwise over the inputs with `eps = self.epsilon`. -/
def v_func (self : QAObjectiveHuberLoss) (predict target : List ℝ) :
    Option (List ℝ) :=
  npBroadcast2 (v_el self.epsilon) predict target

/-- Elementwise kernel of the Huber gradient: with `resid = predict -
target`, `np.where(abs(resid) > eps, eps * np.sign(resid), resid)`. -/
def g_el (eps p t : ℝ) : ℝ :=
  if |p - t| > eps then eps * Real.sign (p - t) else p - t

/-- Huber `g_func`, elementwise over the inputs with `eps = self.epsilon`. -/
def g_func (self : QAObjectiveHuberLoss) (predict target : List ℝ) :
    Option (List ℝ) :=
  npBroadcast2 (g_el self.epsilon) predict target

/-- Elementwise kernel of the Huber Hessian diagonal:
`(abs(predict - target) <= eps) * 1.`. -/
def h_el (eps p t : ℝ) : ℝ :=
  if |p - t| ≤ eps then 1 else 0

/-- Huber `h_func`, elementwise over the inputs with `eps = self.epsilon`. -/
def h_func (self : QAObjectiveHuberLoss) (predict target : List ℝ) :
    Option (List ℝ) :=
  npBroadcast2 (h_el self.epsilon) predict target

/-- Huber `score` is not overridden: calls resolve to the inherited
`QAObjectiveL2Loss.score` (mean squared error). -/
def score (self : QAObjectiveHuberLoss) (predict target : List ℝ) :
    Option ℝ :=
  QAObjectiveL2Loss.score predict target

end QAObjectiveHuberLoss

/-- `sigmoid(x)`: `out = 1 / (1 + np.exp(-abs(x)))`, then
`np.where(x > 0, out, 1 - out)`, elementwise at a scalar. -/
def sigmoid (x : ℝ) : ℝ :=
  let out := 1 / (1 + Real.exp (-|x|))
  if x > 0 then out else 1 - out

namespace QAObjectiveLogLoss

/-- Elementwise kernel of the logistic value:
`np.log1p(np.exp(-abs(logit))) - np.minimum(target * logit, 0)`
(`log1p(z) = log(1 + z)`). -/
def v_el (l t : ℝ) : ℝ :=
  Real.log (1 + Real.exp (-|l|)) - min (t * l) 0

/-- Logistic `v_func`: `out = np.log1p(np.exp(-abs(logit)))` has the
logit's shape, and the in-place `out -= np.minimum(target * logit, 0)`
accepts a subtrahend of the same length, or a length-one target
broadcast across the logit, but cannot enlarge its output: a length-one
logit against a target of any other length raises, as does every other
length mismatch. -/
def v_func (logit target : List ℝ) : Option (List ℝ) :=
  if logit.length = target.length then some (List.zipWith v_el logit target)
  else if target.length = 1 then
    some (logit.map (fun l => v_el l target.headI))
  else none

/-- Elementwise kernel of the logistic gradient:
`sigmoid(logit * target) * target - target`. -/
def g_el (l t : ℝ) : ℝ := sigmoid (l * t) * t - t

/-- Logistic `g_func`, elementwise over the inputs. -/
def g_func (logit target : List ℝ) : Option (List ℝ) :=
  npBroadcast2 g_el logit target

/-- Elementwise kernel of the logistic Hessian diagonal:
`prob = sigmoid(logit); prob * (1 - prob)` — the target is not consulted. -/
def h_el (l : ℝ) : ℝ := sigmoid l * (1 - sigmoid l)

/-- Logistic `h_func`: a map over the logit array alone, so its length is
the logit's length and the target plays no role at all. -/
def h_func (logit target : List ℝ) : Option (List ℝ) :=
  some (logit.map h_el)

/-- The predicted label `(2. * (logit > 0)) - 1`: `+1` for a positive
logit, `-1` otherwise. -/
def predictLabel (l : ℝ) : ℝ := if l > 0 then 1 else -1

/-- `score(logit, target) = 1 - accuracy_score(target, predict)` with
`predict = (2. * (logit > 0)) - 1`.  sklearn validates that both arrays
have the same, nonzero number of samples, and its classification-metric
type check rejects a continuous `y_true`: a target holding any
non-integral value raises; each failure is modelled as `none`. -/
def score (logit target : List ℝ) : Option ℝ :=
  haveI := Classical.propDecidable (∀ t ∈ target, ∃ n : ℤ, (n : ℝ) = t)
  if logit.length = target.length ∧ target ≠ [] ∧
      (∀ t ∈ target, ∃ n : ℤ, (n : ℝ) = t) then
    some (1 - (List.zipWith
      (fun t l => if t = predictLabel l then (1 : ℝ) else 0) target logit).sum
        / target.length)
  else none

end QAObjectiveLogLoss

end

noncomputable section

/-- Helper: the branchy stable sigmoid agrees with the naive formula. -/
lemma sigmoid_eq_naive (x : ℝ) : sigmoid x = 1 / (1 + Real.exp (-x)) := by
  unfold sigmoid
  rcases lt_or_ge 0 x with hx | hx
  · rw [if_pos hx, abs_of_pos hx]
  · rw [if_neg (not_lt.mpr hx), abs_of_nonpos hx, neg_neg, Real.exp_neg]
    have h1 : Real.exp x ≠ 0 := (Real.exp_pos x).ne'
    have h2 : (0:ℝ) < 1 + Real.exp x := by positivity
    field_simp
    ring

/-- Claim C1, counterexample: constructing the Huber family with the
non-positive `epsilon = -1` succeeds and stores `-1`; no
precondition-violation error is raised. -/
theorem huber_init_accepts_nonpositive_epsilon :
    QAObjectiveHuberLoss.init (-1) = Except.ok ⟨-1⟩ := rfl

/-- Claim C1 (amended): the Huber constructor performs no validation of
`epsilon` at all: construction succeeds for every value, positive or
not, and stores it unchanged. -/
theorem huber_init_never_fails (epsilon : ℝ) :
    QAObjectiveHuberLoss.init epsilon = Except.ok ⟨epsilon⟩ := rfl

/-- Claim C7: for every real x, the sigmoid lies strictly between 0 and
1, satisfies `sigmoid (-x) = 1 - sigmoid x` and `sigmoid 0 = 0.5`, and
equals the naive `1 / (1 + exp (-x))`. -/
theorem sigmoid_contract (x : ℝ) :
    (0 < sigmoid x ∧ sigmoid x < 1) ∧
    sigmoid (-x) = 1 - sigmoid x ∧
    sigmoid 0 = 0.5 ∧
    sigmoid x = 1 / (1 + Real.exp (-x)) := by
  have hpos : ∀ y : ℝ, (0:ℝ) < 1 + Real.exp (-y) := fun y => by positivity
  refine ⟨⟨?_, ?_⟩, ?_, ?_, sigmoid_eq_naive x⟩
  · rw [sigmoid_eq_naive]; positivity
  · rw [sigmoid_eq_naive, div_lt_one (hpos x)]
    have := Real.exp_pos (-x); linarith
  · rw [sigmoid_eq_naive, sigmoid_eq_naive, neg_neg, Real.exp_neg]
    have h1 : Real.exp x ≠ 0 := (Real.exp_pos x).ne'
    have h2 : (0:ℝ) < 1 + Real.exp x := by positivity
    have h3 : (0:ℝ) < 1 + (Real.exp x)⁻¹ := by positivity
    field_simp
    ring
  · rw [sigmoid_eq_naive]; norm_num [Real.exp_zero]

/-- Claim C8: the Huber family's score coincides with the L2 family's
score (mean squared error) on every pair of equal-length arrays: `score`
is inherited from L2 unchanged. -/
theorem huber_score_eq_l2_score (self : QAObjectiveHuberLoss)
    (predict target : List ℝ) (hlen : predict.length = target.length) :
    self.score predict target = QAObjectiveL2Loss.score predict target := rfl

/-- Witness for C8 at `self = ⟨1⟩`, `predict = [0]`, `target = [1]`. -/
theorem huber_score_eq_l2_score_witness :
    ([0] : List ℝ).length = ([1] : List ℝ).length ∧
    QAObjectiveHuberLoss.score ⟨1⟩ [0] [1] = QAObjectiveL2Loss.score [0] [1] :=
  ⟨rfl, huber_score_eq_l2_score ⟨1⟩ [0] [1] rfl⟩

/-- Claim C10: for `epsilon > 0`, whenever `|predict - target|` equals
`epsilon` exactly the gradient kernel takes the quadratic-region branch
and returns `predict - target`, and this agrees with the linear-region
formula `epsilon * sign (predict - target)`. -/
theorem huber_gradient_branch_agreement (eps p t : ℝ)
    (heps : 0 < eps) (hth : |p - t| = eps) :
    QAObjectiveHuberLoss.g_el eps p t = p - t ∧
    p - t = eps * Real.sign (p - t) := by
  have hnot : ¬ |p - t| > eps := by rw [hth]; exact lt_irrefl eps
  constructor
  · unfold QAObjectiveHuberLoss.g_el
    rw [if_neg hnot]
  · rcases lt_trichotomy (p - t) 0 with h | h | h
    · rw [Real.sign_of_neg h]
      rw [abs_of_neg h] at hth
      linarith
    · rw [h, abs_zero] at hth
      exact absurd hth.symm heps.ne'
    · rw [Real.sign_of_pos h]
      rw [abs_of_pos h] at hth
      linarith

/-- Witness for C10 at `eps = 1`, `p = 1`, `t = 0`. -/
theorem huber_gradient_branch_agreement_witness :
    (0:ℝ) < 1 ∧ |(1:ℝ) - 0| = 1 ∧
    (QAObjectiveHuberLoss.g_el 1 1 0 = 1 - 0 ∧
     (1:ℝ) - 0 = 1 * Real.sign (1 - 0)) :=
  ⟨by norm_num, by norm_num,
   huber_gradient_branch_agreement 1 1 0 (by norm_num) (by norm_num)⟩

/-- Claim C4: for `epsilon > 0`, elementwise: at `|predict - target| =
epsilon` the two branch formulas of the Huber value agree (the value is
continuous at the threshold); for `|predict - target| ≤ epsilon` the
Huber value equals the L2 value `0.5 * (predict - target)^2`; and for
`|predict - target| > epsilon` the gradient has magnitude exactly
`epsilon`. -/
theorem huber_threshold_properties (eps p t : ℝ) (heps : 0 < eps) :
    (|p - t| = eps →
       QAObjectiveHuberLoss.v_el eps p t = eps * (|p - t| - eps / 2) ∧
       QAObjectiveHuberLoss.v_el eps p t = 0.5 * (p - t) ^ 2) ∧
    (|p - t| ≤ eps →
       QAObjectiveHuberLoss.v_el eps p t = QAObjectiveL2Loss.v_el p t) ∧
    (eps < |p - t| → |QAObjectiveHuberLoss.g_el eps p t| = eps) := by
  refine ⟨fun hth => ?_, fun hle => ?_, fun hgt => ?_⟩
  · have hnot : ¬ |p - t| > eps := by rw [hth]; exact lt_irrefl eps
    constructor
    · unfold QAObjectiveHuberLoss.v_el
      rw [if_neg hnot, hth]
      ring
    · unfold QAObjectiveHuberLoss.v_el
      rw [if_neg hnot, sq_abs]
  · unfold QAObjectiveHuberLoss.v_el QAObjectiveL2Loss.v_el
    rw [if_neg (not_lt.mpr hle), sq_abs]
  · unfold QAObjectiveHuberLoss.g_el
    rw [if_pos hgt, abs_mul, abs_of_pos heps]
    have hne : p - t ≠ 0 := by
      intro h0
      rw [h0, abs_zero] at hgt
      exact absurd hgt (not_lt.mpr heps.le)
    rcases lt_or_gt_of_ne hne with h | h
    · rw [Real.sign_of_neg h]; norm_num
    · rw [Real.sign_of_pos h]; norm_num

/-- Witness for C4 at `eps = 1`, `p = 2`, `t = 0`. -/
theorem huber_threshold_properties_witness :
    (0:ℝ) < 1 ∧
    ((|((2:ℝ)) - 0| = 1 →
       QAObjectiveHuberLoss.v_el 1 2 0 = 1 * (|((2:ℝ)) - 0| - 1 / 2) ∧
       QAObjectiveHuberLoss.v_el 1 2 0 = 0.5 * ((2:ℝ) - 0) ^ 2) ∧
     (|((2:ℝ)) - 0| ≤ 1 →
       QAObjectiveHuberLoss.v_el 1 2 0 = QAObjectiveL2Loss.v_el 2 0) ∧
     ((1:ℝ) < |((2:ℝ)) - 0| → |QAObjectiveHuberLoss.g_el 1 2 0| = 1)) :=
  ⟨by norm_num, huber_threshold_properties 1 2 0 (by norm_num)⟩

end

noncomputable section

/-- Claim C2 (amended): with prediction and target arrays of different
lengths, the calls fail fast with a shape error except where numpy
broadcasting or an ignored argument intervenes: when neither length is
one, L2 value/gradient, Huber value/gradient/Hessian and the logistic
value and gradient all fail; a length-one array on either side is
silently broadcast by the out-of-place calls (L2 value/gradient, Huber
value/gradient/Hessian, logistic gradient), while the logistic value
broadcasts only a length-one target and fails fast whenever the logit
alone has length one (its in-place subtraction cannot enlarge the
output); the L2 Hessian ignores the prediction array (the documented
constant-array case), the logistic Hessian ignores the target, and all
three score functions fail on every length mismatch. -/
theorem mismatch_shape_error (self : QAObjectiveHuberLoss) (a b : List ℝ)
    (hne : a.length ≠ b.length) :
    (a.length ≠ 1 → b.length ≠ 1 →
      QAObjectiveL2Loss.v_func a b = none ∧
      QAObjectiveL2Loss.g_func a b = none ∧
      QAObjectiveHuberLoss.v_func self a b = none ∧
      QAObjectiveHuberLoss.g_func self a b = none ∧
      QAObjectiveHuberLoss.h_func self a b = none ∧
      QAObjectiveLogLoss.v_func a b = none ∧
      QAObjectiveLogLoss.g_func a b = none) ∧
    (a.length = 1 → QAObjectiveLogLoss.v_func a b = none) ∧
    (b.length = 1 →
      QAObjectiveLogLoss.v_func a b
        = some (a.map (fun l => QAObjectiveLogLoss.v_el l b.headI))) ∧
    (a.length = 1 →
      QAObjectiveLogLoss.g_func a b
        = some (b.map (QAObjectiveLogLoss.g_el a.headI))) ∧
    QAObjectiveL2Loss.score a b = none ∧
    QAObjectiveHuberLoss.score self a b = none ∧
    QAObjectiveLogLoss.score a b = none ∧
    QAObjectiveL2Loss.h_func a b = some (List.replicate b.length 1) ∧
    QAObjectiveLogLoss.h_func a b = some (a.map QAObjectiveLogLoss.h_el) := by
  have hsc : QAObjectiveL2Loss.score a b = none := by
    unfold QAObjectiveL2Loss.score
    rw [if_neg]
    intro h
    exact hne h.1
  have hls : QAObjectiveLogLoss.score a b = none := by
    unfold QAObjectiveLogLoss.score
    rw [if_neg]
    intro h
    exact hne h.1
  refine ⟨fun ha hb => ?_, fun ha1 => ?_, fun hb1 => ?_, fun ha1 => ?_,
    hsc, hsc, hls, rfl, rfl⟩
  · have hbc : ∀ f, npBroadcast2 f a b = none := fun f => by
      unfold npBroadcast2
      rw [if_neg hne, if_neg ha, if_neg hb]
    have hlv : QAObjectiveLogLoss.v_func a b = none := by
      unfold QAObjectiveLogLoss.v_func
      rw [if_neg hne, if_neg hb]
    exact ⟨hbc _, hbc _, hbc _, hbc _, hbc _, hlv, hbc _⟩
  · unfold QAObjectiveLogLoss.v_func
    rw [if_neg hne, if_neg]
    intro hb1
    rw [ha1, hb1] at hne
    exact hne rfl
  · unfold QAObjectiveLogLoss.v_func
    rw [if_neg hne, if_pos hb1]
  · unfold QAObjectiveLogLoss.g_func npBroadcast2
    rw [if_neg hne, if_pos ha1]

/-- Witness for C2 (amended) at lengths 2 and 3, plus the logistic value
failure at a length-one logit against a length-two target. -/
theorem mismatch_shape_error_witness :
    ([1, 2] : List ℝ).length ≠ ([1, 2, 3] : List ℝ).length ∧
    QAObjectiveL2Loss.v_func [1, 2] [1, 2, 3] = none ∧
    QAObjectiveLogLoss.v_func [0] [1, 2] = none :=
  ⟨by norm_num,
   ((mismatch_shape_error ⟨1⟩ [1, 2] [1, 2, 3] (by norm_num)).1
      (by norm_num) (by norm_num)).1,
   (mismatch_shape_error ⟨1⟩ [0] [1, 2] (by norm_num)).2.1 rfl⟩

/-- Claim C2, counterexample: with `predict = [0]` (length 1) and
`target = [1, 2]` (length 2) the lengths differ, yet the L2 gradient
call does not fail: numpy silently broadcasts the length-one array and
the call returns `[-1, -2]`. -/
theorem l2_gradient_broadcasts_length_one :
    QAObjectiveL2Loss.g_func [0] [1, 2] = some [-1, -2] := by
  norm_num [QAObjectiveL2Loss.g_func, npBroadcast2, QAObjectiveL2Loss.g_el]

/-- Claim C5: for equal-length nonempty arrays the L2 family returns the
elementwise value `0.5 * (p - t)^2`, the elementwise gradient `p - t`,
the all-ones Hessian of the target's length, and the mean squared error
as score; in particular `predict = [1, 2, 3]`, `target = [1, 1, 1]`
yields `value = [0, 0.5, 2]`, `gradient = [0, 1, 2]`,
`hessian = [1, 1, 1]`, `score = 5/3`. -/
theorem l2_family_contract (predict target : List ℝ)
    (hlen : predict.length = target.length) (hne : target ≠ []) :
    QAObjectiveL2Loss.v_func predict target
      = some (List.zipWith (fun p t => 0.5 * (p - t) ^ 2) predict target) ∧
    QAObjectiveL2Loss.g_func predict target
      = some (List.zipWith (fun p t => p - t) predict target) ∧
    QAObjectiveL2Loss.h_func predict target
      = some (List.replicate target.length 1) ∧
    QAObjectiveL2Loss.score predict target
      = some ((List.zipWith (fun t p => (t - p) ^ 2) target predict).sum
          / (target.length : ℝ)) ∧
    QAObjectiveL2Loss.v_func [1, 2, 3] [1, 1, 1] = some [0, 0.5, 2] ∧
    QAObjectiveL2Loss.g_func [1, 2, 3] [1, 1, 1] = some [0, 1, 2] ∧
    QAObjectiveL2Loss.h_func [1, 2, 3] [1, 1, 1] = some [1, 1, 1] ∧
    QAObjectiveL2Loss.score [1, 2, 3] [1, 1, 1] = some (5 / 3) := by
  refine ⟨?_, ?_, rfl, ?_, ?_, ?_, ?_, ?_⟩
  · unfold QAObjectiveL2Loss.v_func npBroadcast2
    rw [if_pos hlen]
    exact rfl
  · unfold QAObjectiveL2Loss.g_func npBroadcast2
    rw [if_pos hlen]
    exact rfl
  · unfold QAObjectiveL2Loss.score
    rw [if_pos ⟨hlen, hne⟩]
  · norm_num [QAObjectiveL2Loss.v_func, npBroadcast2, QAObjectiveL2Loss.v_el]
  · norm_num [QAObjectiveL2Loss.g_func, npBroadcast2, QAObjectiveL2Loss.g_el]
  · norm_num [QAObjectiveL2Loss.h_func, List.replicate]
  · unfold QAObjectiveL2Loss.score
    rw [if_pos ⟨rfl, List.cons_ne_nil _ _⟩]
    norm_num
/-- Witness for C5 at `predict = [1, 2, 3]`, `target = [1, 1, 1]`. -/
theorem l2_family_contract_witness :
    ([1, 2, 3] : List ℝ).length = ([1, 1, 1] : List ℝ).length ∧
    QAObjectiveL2Loss.score [1, 2, 3] [1, 1, 1] = some (5 / 3) :=
  ⟨rfl, (l2_family_contract [1, 2, 3] [1, 1, 1] rfl
    (List.cons_ne_nil _ _)).2.2.2.2.2.2.2⟩

/-- Claim C9: construction without an explicit `epsilon` stores the
default `1e-2 = 1/100`, and every subsequent `v_func`, `g_func`,
`h_func` call on that instance uses the threshold `1/100`; at residual
1 the instance is already in the linear regime: gradient `1/100`,
Hessian `0`. -/
theorem huber_default_epsilon_is_one_hundredth :
    QAObjectiveHuberLoss.initDefault = Except.ok ⟨1 / 100⟩ ∧
    (∀ h : QAObjectiveHuberLoss,
       QAObjectiveHuberLoss.initDefault = Except.ok h →
       h.epsilon = 1 / 100 ∧
       (∀ predict target,
         h.v_func predict target
           = npBroadcast2 (QAObjectiveHuberLoss.v_el (1 / 100)) predict target ∧
         h.g_func predict target
           = npBroadcast2 (QAObjectiveHuberLoss.g_el (1 / 100)) predict target ∧
         h.h_func predict target
           = npBroadcast2 (QAObjectiveHuberLoss.h_el (1 / 100)) predict target) ∧
       h.g_func [1] [0] = some [1 / 100] ∧
       h.h_func [1] [0] = some [0]) := by
  have h100 : QAObjectiveHuberLoss.defaultEpsilon = 1 / 100 := by
    unfold QAObjectiveHuberLoss.defaultEpsilon
    norm_num
  have hfirst : QAObjectiveHuberLoss.initDefault = Except.ok ⟨1 / 100⟩ := by
    unfold QAObjectiveHuberLoss.initDefault QAObjectiveHuberLoss.init
    rw [h100]
  refine ⟨hfirst, ?_⟩
  intro h hh
  rw [hfirst] at hh
  injection hh with hh2
  subst hh2
  have hsign : Real.sign ((1:ℝ) - 0) = 1 :=
    Real.sign_of_pos (by norm_num)
  refine ⟨rfl, fun predict target => ⟨rfl, rfl, rfl⟩, ?_, ?_⟩
  · norm_num [QAObjectiveHuberLoss.g_func, npBroadcast2,
      QAObjectiveHuberLoss.g_el, hsign]
  · norm_num [QAObjectiveHuberLoss.h_func, npBroadcast2,
      QAObjectiveHuberLoss.h_el]

/-- Witness for C9: the default-constructed instance and its stored
threshold. -/
theorem huber_default_epsilon_witness :
    QAObjectiveHuberLoss.initDefault = Except.ok ⟨1 / 100⟩ ∧
    QAObjectiveHuberLoss.epsilon ⟨1 / 100⟩ = 1 / 100 :=
  ⟨huber_default_epsilon_is_one_hundredth.1,
   (huber_default_epsilon_is_one_hundredth.2 ⟨1 / 100⟩
      huber_default_epsilon_is_one_hundredth.1).1⟩

end

noncomputable section

/-- Helper: the stable form `log1p (exp (-|u|)) - min u 0` equals
`log (1 + exp (-u))`. -/
lemma log1p_exp_abs (u : ℝ) :
    Real.log (1 + Real.exp (-|u|)) - min u 0 = Real.log (1 + Real.exp (-u)) := by
  rcases le_or_lt 0 u with hu | hu
  · rw [abs_of_nonneg hu, min_eq_right hu, sub_zero]
  · rw [abs_of_neg hu, neg_neg, min_eq_left hu.le]
    have h1 : (0:ℝ) < 1 + Real.exp u := by positivity
    have h2 : (0:ℝ) < Real.exp (-u) := Real.exp_pos _
    have hne : Real.exp u ≠ 0 := (Real.exp_pos u).ne'
    have key : (1:ℝ) + Real.exp (-u) = Real.exp (-u) * (1 + Real.exp u) := by
      rw [Real.exp_neg]
      field_simp
      ring
    rw [key, Real.log_mul h2.ne' h1.ne', Real.log_exp]
    ring

/-- Claim C6: for ±1 targets the logistic value kernel equals the
standard log-loss `log (1 + exp (-target * logit))`; the symmetry
`value (logit, +1) = value (-logit, -1)` holds for every logit; and
`value([0], [1]) = [log 2]`. -/
theorem logloss_value_contract :
    (∀ l t : ℝ, t = 1 ∨ t = -1 →
       QAObjectiveLogLoss.v_el l t = Real.log (1 + Real.exp (-(t * l)))) ∧
    (∀ l : ℝ, QAObjectiveLogLoss.v_el l 1 = QAObjectiveLogLoss.v_el (-l) (-1)) ∧
    QAObjectiveLogLoss.v_func [0] [1] = some [Real.log 2] := by
  have hgen : ∀ l t : ℝ, t = 1 ∨ t = -1 →
      QAObjectiveLogLoss.v_el l t = Real.log (1 + Real.exp (-(t * l))) := by
    intro l t ht
    unfold QAObjectiveLogLoss.v_el
    rcases ht with h | h
    · subst h
      rw [one_mul]
      exact log1p_exp_abs l
    · subst h
      rw [neg_one_mul, ← abs_neg l]
      exact log1p_exp_abs (-l)
  refine ⟨hgen, fun l => ?_, ?_⟩
  · rw [hgen l 1 (Or.inl rfl), hgen (-l) (-1) (Or.inr rfl)]
    norm_num
  · unfold QAObjectiveLogLoss.v_func
    norm_num [QAObjectiveLogLoss.v_el, Real.exp_zero]

/-- Witness for C6 at `l = 0`, `t = 1`. -/
theorem logloss_value_contract_witness :
    QAObjectiveLogLoss.v_el 0 1 = Real.log (1 + Real.exp (-(1 * 0))) :=
  logloss_value_contract.1 0 1 (Or.inl rfl)

/-- Claim C3: for equal-length logits and ±1 targets the logistic
gradient is `sigmoid (logit * target) * target - target` elementwise and
the Hessian diagonal is `p * (1 - p)` with `p = sigmoid logit` — the
sigmoid of the raw logit, not of `logit * target`; in particular
`gradient([0], [1]) = [-0.5]` and `hessian([0], [1]) = [0.25]`. -/
theorem logloss_gradient_hessian_contract (logit target : List ℝ)
    (hlen : logit.length = target.length)
    (hpm : ∀ t ∈ target, t = 1 ∨ t = -1) :
    QAObjectiveLogLoss.g_func logit target
      = some (List.zipWith (fun l t => sigmoid (l * t) * t - t) logit target) ∧
    QAObjectiveLogLoss.h_func logit target
      = some (logit.map (fun l => sigmoid l * (1 - sigmoid l))) ∧
    QAObjectiveLogLoss.g_func [0] [1] = some [-0.5] ∧
    QAObjectiveLogLoss.h_func [0] [1] = some [0.25] := by
  have hs0 : sigmoid 0 = 1 / 2 := by
    rw [sigmoid_eq_naive]
    norm_num [Real.exp_zero]
  refine ⟨?_, rfl, ?_, ?_⟩
  · unfold QAObjectiveLogLoss.g_func npBroadcast2
    rw [if_pos hlen]
    exact rfl
  · unfold QAObjectiveLogLoss.g_func npBroadcast2
    norm_num [QAObjectiveLogLoss.g_el, hs0]
  · unfold QAObjectiveLogLoss.h_func
    norm_num [QAObjectiveLogLoss.h_el, hs0]

/-- Witness for C3 at `logit = [0]`, `target = [1]`. -/
theorem logloss_gradient_hessian_contract_witness :
    ([0] : List ℝ).length = ([1] : List ℝ).length ∧
    QAObjectiveLogLoss.g_func [0] [1] = some [-0.5] :=
  ⟨rfl, (logloss_gradient_hessian_contract [0] [1] rfl (by simp)).2.2.1⟩

end

noncomputable section

/-- Witness for the amended C1 at `epsilon = 5`. -/
theorem huber_init_never_fails_witness :
    QAObjectiveHuberLoss.init 5 = Except.ok ⟨5⟩ :=
  huber_init_never_fails 5

/-- Witness for C7 at `x = 0`. -/
theorem sigmoid_contract_witness :
    (0 < sigmoid 0 ∧ sigmoid 0 < 1) ∧
    sigmoid (-0) = 1 - sigmoid 0 ∧
    sigmoid 0 = 0.5 ∧
    sigmoid 0 = 1 / (1 + Real.exp (-0)) :=
  sigmoid_contract 0

end
